import Mathlib

/-!
Verification of the Pong game core (`src/game.js`).

The development shallowly embeds the game's core logic in Lean:

* JavaScript numbers are modelled as `ℚ` for the purely rational layout
  arithmetic (`GameUtils.getResponsiveDimensions`,
  `GameUtils.constrainPaddlePosition`) and as `ℝ` for the physics, whose
  velocity normalisation takes a square root (Kaboom `Vec2.unit`,
  `Vec2.fromAngle`).
* Randomness (`choose`, `rand`) is modelled by passing the drawn values as
  explicit parameters.
* Kaboom entities are modelled as records; `exists()` becomes an `alive`
  flag and `destroyAll` marks every ball entity dead (the manager arrays
  `ballManager.balls` and `this.paddles` keep their length, as in the
  source, because destruction does not splice the arrays).
* Kaboom's `obj.move(v)` displaces by `v * dt`; the per-frame `dt` is an
  explicit parameter.
-/

namespace Pong

/-! ## Responsive layout (`GameUtils.getResponsiveDimensions`) -/

/-- The four device breakpoints of `getResponsiveDimensions`. -/
inductive Breakpoint
  | mobile
  | tablet
  | laptop
  | desktop
deriving DecidableEq, Repr

/-- Ordering rank of a breakpoint: mobile < tablet < laptop < desktop. -/
def Breakpoint.rank : Breakpoint → ℕ
  | .mobile => 0
  | .tablet => 1
  | .laptop => 2
  | .desktop => 3

/-- Breakpoint selection of `getResponsiveDimensions`: ordered inclusive
threshold checks on the viewport, `desktop` as the fallback. -/
def getBreakpoint (screenWidth screenHeight : ℚ) : Breakpoint :=
  if screenWidth ≤ 768 ∨ screenHeight ≤ 600 then .mobile
  else if screenWidth ≤ 1024 ∨ screenHeight ≤ 768 then .tablet
  else if screenWidth ≤ 1366 ∨ screenHeight ≤ 900 then .laptop
  else .desktop

/-- Paddle height per breakpoint (the `paddleConfigs` table of
`constrainPaddlePosition` and `createPaddles`). -/
def paddleHeightFor : Breakpoint → ℚ
  | .mobile => 100
  | .tablet => 120
  | .laptop => 140
  | .desktop => 160

/-- Embedding of `GameUtils.constrainPaddlePosition(mouseY, headerHeight, screenHeight)`:
`Math.max(minY, Math.min(maxY, mouseY))` with
`minY = headerHeight + paddleHeight / 2` and
`maxY = screenHeight - paddleHeight / 2`, the paddle height looked up from
the breakpoint of the current viewport (`width()`, `height()`), passed here
as `viewW`, `viewH`. -/
def constrainPaddlePosition (mouseY headerHeight screenHeight viewW viewH : ℚ) : ℚ :=
  max (headerHeight + paddleHeightFor (getBreakpoint viewW viewH) / 2)
    (min (screenHeight - paddleHeightFor (getBreakpoint viewW viewH) / 2) mouseY)

/-! ## Vectors (Kaboom `vec2`) -/

/-- A 2D vector over ℝ. -/
structure Vec2 where
  x : ℝ
  y : ℝ

/-- Squared Euclidean norm of a vector. -/
def Vec2.normSq (v : Vec2) : ℝ := v.x ^ 2 + v.y ^ 2

/-- Kaboom `v.unit()`: scale the vector to unit length. -/
noncomputable def Vec2.unit (v : Vec2) : Vec2 :=
  ⟨v.x / Real.sqrt v.normSq, v.y / Real.sqrt v.normSq⟩

/-- Kaboom `Vec2.fromAngle(deg)`: unit vector at the given angle in
degrees. -/
noncomputable def Vec2.fromAngle (deg : ℝ) : Vec2 :=
  ⟨Real.cos (deg * (Real.pi / 180)), Real.sin (deg * (Real.pi / 180))⟩

/-- Kaboom `v.scale(w)` with a vector argument: componentwise product. -/
def Vec2.scaleV (v w : Vec2) : Vec2 := ⟨v.x * w.x, v.y * w.y⟩

/-! ## Game data model -/

/-- The two game modes. -/
inductive GameMode
  | speed
  | agility
deriving DecidableEq, Repr

/-- The state machine states of `PongGame.gameState`. -/
inductive GameState
  | menu
  | playing
  | gameOver
deriving DecidableEq, Repr

/-- A ball entity: position, direction vector `vel`, scalar `speed`, and an
`alive` flag modelling Kaboom `exists()`. -/
structure Ball where
  posX : ℝ
  posY : ℝ
  velX : ℝ
  velY : ℝ
  speed : ℝ
  alive : Bool

/-- A paddle entity (anchored at its center, as in `createPaddles`). -/
structure Paddle where
  posX : ℝ
  posY : ℝ

/-- The mutable session state of `PongGame` plus the entity collections
(`ballManager.balls`, `this.paddles`). -/
structure Session where
  gameState : GameState
  gameMode : GameMode
  gameTime : ℝ
  finalTime : ℝ
  score : ℕ
  lastBallSpawnTime : ℝ
  balls : List Ball
  paddles : List Paddle

/-- Result of `GameUtils.getRandomSpawnPosition`. -/
structure SpawnInfo where
  x : ℝ
  y : ℝ
  vel : Vec2

/-- Embedding of `GameUtils.getRandomSpawnPosition(headerHeight, gameHeight)`.
`side` is the drawn `choose([0, 1])` (`false` = 0 = left), `ry` the drawn
`rand(0, gameHeight - headerHeight - 200)`, `rv` the drawn
`rand(-0.5, 0.5)`; `screenW` is `width()`. -/
noncomputable def getRandomSpawnPosition (screenW headerHeight gameHeight : ℝ)
    (side : Bool) (ry rv : ℝ) : SpawnInfo :=
  { x := if side then screenW - 100 else 100
    y := headerHeight + 100 + ry
    vel := Vec2.unit ⟨(if side then (-1 : ℝ) else 1) * 1, rv⟩ }

/-- Embedding of `BallManager.createBall(x, y, velocity, speed)`: the fresh ball entity
it adds. -/
def mkBall (x y : ℝ) (vel : Vec2) (speed : ℝ) : Ball :=
  ⟨x, y, vel.x, vel.y, speed, true⟩

/-- The initial ball's velocity in `createInitialBall`:
`Vec2.fromAngle(startAngle).scale(vec2(startDirection, 1)).unit()`, where
`dirRight` is the drawn `choose([-1, 1])` (`true` = 1) and `angleDeg` the
drawn `rand(-30, 30)`. -/
noncomputable def initialBallVelocity (dirRight : Bool) (angleDeg : ℝ) : Vec2 :=
  Vec2.unit ((Vec2.fromAngle angleDeg).scaleV ⟨if dirRight then 1 else -1, 1⟩)

/-- Embedding of `BallManager.createInitialBall(headerHeight)`: ball at the play-area
center, speed 600. -/
noncomputable def createInitialBall (screenW screenH headerHeight : ℝ)
    (dirRight : Bool) (angleDeg : ℝ) : Ball :=
  mkBall (screenW / 2) (headerHeight + (screenH - headerHeight) / 2)
    (initialBallVelocity dirRight angleDeg) 600

/-- Embedding of `BallManager.spawnNewBall(headerHeight, gameHeight)`: a ball at the
random spawn position with speed 600. -/
noncomputable def spawnNewBall (screenW headerHeight gameHeight : ℝ)
    (side : Bool) (ry rv : ℝ) : Ball :=
  mkBall (getRandomSpawnPosition screenW headerHeight gameHeight side ry rv).x
    (getRandomSpawnPosition screenW headerHeight gameHeight side ry rv).y
    (getRandomSpawnPosition screenW headerHeight gameHeight side ry rv).vel 600

/-- Embedding of `GameObjectManager.createPaddles(headerHeight)`: two paddles at the
breakpoint offset from the left and right edges. -/
noncomputable def createPaddles (screenW headerHeight offset pHeight : ℝ) : List Paddle :=
  [⟨offset, headerHeight + pHeight / 2 + 20⟩,
   ⟨screenW - offset, headerHeight + pHeight / 2 + 20⟩]

/-- A destroyed ball (`destroy`/`destroyAll` makes `exists()` false). -/
def killBall (b : Ball) : Ball := { b with alive := false }

/-- Effect of `destroyAll` with the game tag on the ball collection. -/
def killBalls (l : List Ball) : List Ball := l.map killBall

/-- Embedding of `PongGame.showGameOver()`: set state to `gameOver`, record
`finalTime = gameTime`, and destroy the game entities (the manager array
keeps its destroyed entries, so its length is unchanged). -/
def showGameOver (s : Session) : Session :=
  { s with gameState := .gameOver, finalTime := s.gameTime, balls := killBalls s.balls }

/-- Embedding of `PongGame.startGame()` followed by `createGameObjects()`: reset the
session scalars, clear the balls, create two paddles and the initial
ball. -/
noncomputable def startGame (screenW screenH headerHeight offset pHeight : ℝ)
    (dirRight : Bool) (angleDeg : ℝ) (s : Session) : Session :=
  { s with
    gameState := .playing
    gameTime := 0
    lastBallSpawnTime := 0
    score := 0
    balls := [createInitialBall screenW screenH headerHeight dirRight angleDeg]
    paddles := createPaddles screenW headerHeight offset pHeight }

/-- Embedding of `ball.move(ball.vel.scale(ball.speed))`: Kaboom displaces by the argument
times the frame delta `dt`. -/
noncomputable def moveBall (b : Ball) (dt : ℝ) : Ball :=
  { b with
    posX := b.posX + b.velX * b.speed * dt
    posY := b.posY + b.velY * b.speed * dt }

/-- The wall-bounce block of `BallManager.updateBalls`: if the y position is
at or beyond a horizontal wall, negate the y velocity and clamp the position
one unit inside the violated wall. -/
noncomputable def bounceBall (headerHeight gameHeight : ℝ) (b : Ball) : Ball :=
  if b.posY ≤ headerHeight ∨ b.posY ≥ gameHeight then
    let b1 : Ball := { b with velY := -b.velY }
    if b1.posY ≤ headerHeight then { b1 with posY := headerHeight + 1 }
    else if b1.posY ≥ gameHeight then { b1 with posY := gameHeight - 1 }
    else b1
  else b

/-- The per-ball body of `BallManager.updateBalls` for an existing ball:
move, then either signal game over (skipping the wall bounce) when the x
position has left `[0, screenW]`, or apply the wall bounce. The `Bool`
result reports whether `onGameOver` was called. -/
noncomputable def frameStepBall (headerHeight gameHeight screenW dt : ℝ)
    (b : Ball) : Ball × Bool :=
  let bm := moveBall b dt
  if bm.posX < 0 ∨ bm.posX > screenW then (bm, true)
  else (bounceBall headerHeight gameHeight bm, false)

/-- Accumulated result of iterating `updateBalls` over the copied ball
list: the processed copies, the session after the `onGameOver` callbacks,
the number of callback invocations, and whether `destroyAll` has run. -/
structure BallsOut where
  balls : List Ball
  scal : Session
  fires : ℕ
  destroyed : Bool

/-- The `forEach` loop of `BallManager.updateBalls` over the copied list.
A ball is processed only when it still exists (`alive` and not yet
destroyed by an earlier `showGameOver` in the same frame). The
`onGameOver` callback wired by `updateGame` is `showGameOver`, whose
`destroyAll("game")` destroys every remaining ball entity. -/
noncomputable def updateBallsAux (headerHeight gameHeight screenW dt : ℝ) :
    List Ball → Session → Bool → ℕ → BallsOut
  | [], s, destroyed, fires => ⟨[], s, fires, destroyed⟩
  | b :: rest, s, destroyed, fires =>
    if b.alive = true ∧ destroyed = false then
      let step := frameStepBall headerHeight gameHeight screenW dt b
      if step.2 then
        let out := updateBallsAux headerHeight gameHeight screenW dt rest
          (showGameOver s) true (fires + 1)
        ⟨step.1 :: out.balls, out.scal, out.fires, out.destroyed⟩
      else
        let out := updateBallsAux headerHeight gameHeight screenW dt rest s destroyed fires
        ⟨step.1 :: out.balls, out.scal, out.fires, out.destroyed⟩
    else
      let out := updateBallsAux headerHeight gameHeight screenW dt rest s destroyed fires
      ⟨b :: out.balls, out.scal, out.fires, out.destroyed⟩

/-- Embedding of `BallManager.updateBalls(headerHeight, gameHeight, onGameOver)` with the
`showGameOver` callback: returns the updated session together with the
number of `onGameOver` invocations. -/
noncomputable def updateBalls (headerHeight gameHeight screenW dt : ℝ)
    (s : Session) : Session × ℕ :=
  let out := updateBallsAux headerHeight gameHeight screenW dt s.balls s false 0
  ({ out.scal with balls := if out.destroyed then killBalls out.balls else out.balls },
   out.fires)

/-- Embedding of `PongGame.handleBallPaddleCollision(ball, paddle)`. `centerX` is
`center().x`; `paddleHeight` is `paddle.height`, with the JS
`paddle.height || 140` fallback modelled for the falsy value 0. -/
noncomputable def handleBallPaddleCollision (centerX : ℝ) (s : Session) (b : Ball)
    (paddlePosY paddleHeight : ℝ) : Session × Ball :=
  if s.gameState = .playing then
    let ph := if paddleHeight = 0 then 140 else paddleHeight
    let clampedOffset := max (-0.8) (min 0.8 ((b.posY - paddlePosY) / (ph / 2)))
    let newVelocity := Vec2.unit ⟨if b.posX < centerX then 1 else -1, clampedOffset⟩
    ({ s with score := s.score + 1 },
     { b with velX := newVelocity.x, velY := newVelocity.y, speed := b.speed + 80 })
  else (s, b)

/-- Parameters of one collision event delivered by the engine. -/
structure HitParams where
  centerX : ℝ
  paddlePosY : ℝ
  paddleHeight : ℝ

/-- Events affecting one ball and the session during play, between game
resets: a paddle hit, a frame movement, or a wall bounce. -/
inductive PlayEvent
  | hit (p : HitParams)
  | move (dt : ℝ)
  | wall (headerHeight gameHeight : ℝ)

/-- Apply one play event to the session and the tracked ball. -/
noncomputable def applyEvent (e : PlayEvent) (sb : Session × Ball) : Session × Ball :=
  match e with
  | .hit p => handleBallPaddleCollision p.centerX sb.1 sb.2 p.paddlePosY p.paddleHeight
  | .move dt => (sb.1, moveBall sb.2 dt)
  | .wall headerHeight gameHeight => (sb.1, bounceBall headerHeight gameHeight sb.2)

/-- Apply a sequence of play events in order. -/
noncomputable def applyEvents : List PlayEvent → Session × Ball → Session × Ball
  | [], sb => sb
  | e :: es, sb => applyEvents es (applyEvent e sb)

/-- Number of paddle-hit events in a sequence. -/
def countHits : List PlayEvent → ℕ
  | [] => 0
  | .hit _ :: es => countHits es + 1
  | .move _ :: es => countHits es
  | .wall _ _ :: es => countHits es

/-- Embedding of `PongGame.updateGame()`: the per-frame tick. While playing with at
least one ball: advance `gameTime` by `dt`, apply the agility-mode spawn
policy, then update the balls (`gameHeight` is `height()`, i.e.
`screenH`). -/
noncomputable def updateGame (headerHeight screenW screenH dt : ℝ)
    (side : Bool) (ry rv : ℝ) (s : Session) : Session :=
  if s.gameState = .playing ∧ 0 < s.balls.length then
    let s1 := { s with gameTime := s.gameTime + dt }
    let s2 :=
      if s1.gameMode = .agility ∧ s1.gameTime - s1.lastBallSpawnTime ≥ 10 ∧
          s1.balls.length < 10 then
        { s1 with
          balls := s1.balls ++ [spawnNewBall screenW headerHeight screenH side ry rv]
          lastBallSpawnTime := s1.gameTime }
      else s1
    (updateBalls headerHeight screenH screenW dt s2).1
  else s

/-! ## Layout lemmas -/

/-- A disjunctive threshold test satisfied at a larger viewport is satisfied
at any smaller one. -/
lemma cond_antitone (a b w h w' h' : ℚ) (hw : w' ≤ w) (hh : h' ≤ h)
    (hc : w ≤ a ∨ h ≤ b) : w' ≤ a ∨ h' ≤ b := by
  rcases hc with hc | hc
  · exact Or.inl (le_trans hw hc)
  · exact Or.inr (le_trans hh hc)

lemma getBreakpoint_mobile (w h : ℚ) (hc : w ≤ 768 ∨ h ≤ 600) :
    getBreakpoint w h = .mobile := by
  unfold getBreakpoint
  rw [if_pos hc]

lemma getBreakpoint_rank_le_one (w h : ℚ) (hc : w ≤ 1024 ∨ h ≤ 768) :
    (getBreakpoint w h).rank ≤ 1 := by
  unfold getBreakpoint
  split_ifs with a <;> simp [Breakpoint.rank]

lemma getBreakpoint_rank_le_two (w h : ℚ) (hc : w ≤ 1366 ∨ h ≤ 900) :
    (getBreakpoint w h).rank ≤ 2 := by
  unfold getBreakpoint
  split_ifs with a b <;> simp [Breakpoint.rank]

lemma getBreakpoint_rank_le_three (w h : ℚ) :
    (getBreakpoint w h).rank ≤ 3 := by
  unfold getBreakpoint
  split_ifs <;> simp [Breakpoint.rank]

/-- Breakpoint rank is monotone in the viewport: shrinking the viewport never
produces a larger breakpoint. -/
lemma getBreakpoint_rank_mono (w h w' h' : ℚ) (hw : w' ≤ w) (hh : h' ≤ h) :
    (getBreakpoint w' h').rank ≤ (getBreakpoint w h).rank := by
  by_cases h1 : w ≤ 768 ∨ h ≤ 600
  · rw [getBreakpoint_mobile w h h1,
      getBreakpoint_mobile w' h' (cond_antitone _ _ _ _ _ _ hw hh h1)]
  · by_cases h2 : w ≤ 1024 ∨ h ≤ 768
    · have ht : getBreakpoint w h = .tablet := by
        unfold getBreakpoint
        rw [if_neg h1, if_pos h2]
      rw [ht]
      exact getBreakpoint_rank_le_one w' h' (cond_antitone _ _ _ _ _ _ hw hh h2)
    · by_cases h3 : w ≤ 1366 ∨ h ≤ 900
      · have hl : getBreakpoint w h = .laptop := by
          unfold getBreakpoint
          rw [if_neg h1, if_neg h2, if_pos h3]
        rw [hl]
        exact getBreakpoint_rank_le_two w' h' (cond_antitone _ _ _ _ _ _ hw hh h3)
      · have hd : getBreakpoint w h = .desktop := by
          unfold getBreakpoint
          rw [if_neg h1, if_neg h2, if_neg h3]
        rw [hd]
        exact getBreakpoint_rank_le_three w' h'

/-! ## Claim C7 -/

/-- C7: for every viewport, `getResponsiveDimensions` returns exactly one
breakpoint, characterised by the inclusive (`≤`) threshold checks evaluated
in order mobile → tablet → laptop with desktop as fallback (first true
wins); and the breakpoint is monotone: decreasing viewport width or height
never yields a larger breakpoint. -/
theorem c7_breakpoint_order_and_monotone :
    (∀ w h : ℚ,
      (getBreakpoint w h = .mobile ↔ (w ≤ 768 ∨ h ≤ 600)) ∧
      (getBreakpoint w h = .tablet ↔
        (¬(w ≤ 768 ∨ h ≤ 600) ∧ (w ≤ 1024 ∨ h ≤ 768))) ∧
      (getBreakpoint w h = .laptop ↔
        (¬(w ≤ 768 ∨ h ≤ 600) ∧ ¬(w ≤ 1024 ∨ h ≤ 768) ∧ (w ≤ 1366 ∨ h ≤ 900))) ∧
      (getBreakpoint w h = .desktop ↔
        (¬(w ≤ 768 ∨ h ≤ 600) ∧ ¬(w ≤ 1024 ∨ h ≤ 768) ∧ ¬(w ≤ 1366 ∨ h ≤ 900)))) ∧
    (∀ w h w' h' : ℚ, w' ≤ w → h' ≤ h →
      (getBreakpoint w' h').rank ≤ (getBreakpoint w h).rank) := by
  refine ⟨fun w h => ?_, getBreakpoint_rank_mono⟩
  unfold getBreakpoint
  split_ifs with a b c <;> simp_all

/-- Witness for C7 at a concrete shrinking viewport. -/
theorem c7_witness :
    (getBreakpoint 700 500).rank ≤ (getBreakpoint 1920 1080).rank :=
  c7_breakpoint_order_and_monotone.2 1920 1080 700 500 (by norm_num) (by norm_num)

/-! ## Claim C8 -/

/-- C8 counterexample: with viewport 500×400 (mobile, paddle height 100),
`headerHeight = 60` and `screenHeight = 100`, the bounds are inverted
(`minY = 110 > maxY = 50`) and the output 110 does not lie within
`[headerHeight + h/2, screenHeight - h/2]`, refuting the claim that the
output always lies in that interval. -/
theorem c8_counterexample :
    ¬ (constrainPaddlePosition 0 60 100 500 400 ≤
        100 - paddleHeightFor (getBreakpoint 500 400) / 2) := by
  norm_num [constrainPaddlePosition, getBreakpoint, paddleHeightFor]

/-- C8 (amended): `constrainPaddlePosition` is idempotent for every input,
and its output lies within `[headerHeight + h/2, screenHeight - h/2]`
whenever that interval is nonempty (i.e. the bounds are not inverted). -/
theorem c8_clamp_idempotent_and_range (mouseY hh sh vw vh : ℚ) :
    constrainPaddlePosition (constrainPaddlePosition mouseY hh sh vw vh) hh sh vw vh =
      constrainPaddlePosition mouseY hh sh vw vh ∧
    (hh + paddleHeightFor (getBreakpoint vw vh) / 2 ≤
        sh - paddleHeightFor (getBreakpoint vw vh) / 2 →
      hh + paddleHeightFor (getBreakpoint vw vh) / 2 ≤
          constrainPaddlePosition mouseY hh sh vw vh ∧
        constrainPaddlePosition mouseY hh sh vw vh ≤
          sh - paddleHeightFor (getBreakpoint vw vh) / 2) := by
  unfold constrainPaddlePosition
  constructor
  · rcases le_total (min (sh - paddleHeightFor (getBreakpoint vw vh) / 2) mouseY)
      (hh + paddleHeightFor (getBreakpoint vw vh) / 2) with h1 | h1
    · rw [max_eq_left h1]
      rcases le_total (hh + paddleHeightFor (getBreakpoint vw vh) / 2)
        (sh - paddleHeightFor (getBreakpoint vw vh) / 2) with h2 | h2
      · rw [min_eq_right h2, max_self]
      · rw [min_eq_left h2, max_eq_left h2]
    · rw [max_eq_right h1, min_eq_right (min_le_left _ _), max_eq_right h1]
  · intro hac
    exact ⟨le_max_left _ _, max_le hac (min_le_left _ _)⟩

/-- Witness for C8 at a concrete non-inverted viewport. -/
theorem c8_witness :
    constrainPaddlePosition 9999 60 1080 1920 1200 ≤
      1080 - paddleHeightFor (getBreakpoint 1920 1200) / 2 :=
  ((c8_clamp_idempotent_and_range 9999 60 1080 1920 1200).2
    (by norm_num [getBreakpoint, paddleHeightFor])).2

/-! ## Claim C10 -/

/-- C10: when the clamp bounds are inverted
(`headerHeight + h/2 > screenHeight - h/2`), `constrainPaddlePosition`
returns the lower bound `headerHeight + h/2` for every pointer input,
because the `max` with the lower bound is applied last. -/
theorem c10_inverted_bounds (mouseY hh sh vw vh : ℚ)
    (hinv : sh - paddleHeightFor (getBreakpoint vw vh) / 2 <
      hh + paddleHeightFor (getBreakpoint vw vh) / 2) :
    constrainPaddlePosition mouseY hh sh vw vh =
      hh + paddleHeightFor (getBreakpoint vw vh) / 2 := by
  unfold constrainPaddlePosition
  exact max_eq_left (le_of_lt (lt_of_le_of_lt (min_le_left _ _) hinv))

/-- Witness for C10 at a concrete tiny viewport. -/
theorem c10_witness :
    constrainPaddlePosition 200 60 100 500 400 =
      60 + paddleHeightFor (getBreakpoint 500 400) / 2 :=
  c10_inverted_bounds 200 60 100 500 400
    (by norm_num [getBreakpoint, paddleHeightFor])

/-! ## Velocity normalisation lemmas -/

lemma normSq_nonneg (v : Vec2) : 0 ≤ v.normSq :=
  add_nonneg (sq_nonneg _) (sq_nonneg _)

/-- Normalising a vector of nonzero norm yields a unit vector. -/
lemma normSq_unit (v : Vec2) (hv : v.normSq ≠ 0) : (Vec2.unit v).normSq = 1 := by
  have h0 : (0 : ℝ) ≤ v.normSq := normSq_nonneg v
  have hsq : Real.sqrt v.normSq ^ 2 = v.normSq := Real.sq_sqrt h0
  show (v.x / Real.sqrt v.normSq) ^ 2 + (v.y / Real.sqrt v.normSq) ^ 2 = 1
  rw [div_pow, div_pow, div_add_div_same, hsq]
  show v.normSq / v.normSq = 1
  exact div_self hv

/-- A vector whose x component is ±1 has nonzero norm. -/
lemma normSq_pm_one_ne_zero (c y : ℝ) (hc : c = 1 ∨ c = -1) :
    Vec2.normSq ⟨c, y⟩ ≠ 0 := by
  have h1 : c ^ 2 = 1 := by
    rcases hc with h | h <;> rw [h] <;> norm_num
  show c ^ 2 + y ^ 2 ≠ 0
  rw [h1]
  positivity

/-- Evaluation of `handleBallPaddleCollision` in the `playing` state. -/
lemma handleBallPaddleCollision_playing (centerX : ℝ) (s : Session) (b : Ball)
    (paddlePosY paddleHeight : ℝ) (hs : s.gameState = .playing) :
    handleBallPaddleCollision centerX s b paddlePosY paddleHeight =
      ({ s with score := s.score + 1 },
       { b with
          velX := (Vec2.unit ⟨if b.posX < centerX then 1 else -1,
            max (-0.8) (min 0.8 ((b.posY - paddlePosY) /
              ((if paddleHeight = 0 then 140 else paddleHeight) / 2)))⟩).x
          velY := (Vec2.unit ⟨if b.posX < centerX then 1 else -1,
            max (-0.8) (min 0.8 ((b.posY - paddlePosY) /
              ((if paddleHeight = 0 then 140 else paddleHeight) / 2)))⟩).y
          speed := b.speed + 80 }) := by
  unfold handleBallPaddleCollision
  rw [if_pos hs]

/-! ## Claim C1 -/

/-- C1: the ball's velocity is unit length (`‖v‖² = 1`) immediately after a
random agility-mode spawn, after the initial-ball spawn, and after any
ball-paddle collision in the `playing` state; and the movement step scales
by the separate scalar `speed` without ever folding it into the direction
vector (`moveBall` leaves `vel` and `speed` untouched). -/
theorem c1_unit_velocity_after_spawn_and_collision :
    (∀ (screenW headerHeight gameHeight : ℝ) (side : Bool) (ry rv : ℝ),
      (getRandomSpawnPosition screenW headerHeight gameHeight side ry rv).vel.normSq = 1) ∧
    (∀ (dirRight : Bool) (angleDeg : ℝ),
      (initialBallVelocity dirRight angleDeg).normSq = 1) ∧
    (∀ (centerX : ℝ) (s : Session) (b : Ball) (paddlePosY paddleHeight : ℝ),
      s.gameState = .playing →
      (handleBallPaddleCollision centerX s b paddlePosY paddleHeight).2.velX ^ 2 +
        (handleBallPaddleCollision centerX s b paddlePosY paddleHeight).2.velY ^ 2 = 1) ∧
    (∀ (b : Ball) (dt : ℝ),
      (moveBall b dt).velX = b.velX ∧ (moveBall b dt).velY = b.velY ∧
        (moveBall b dt).speed = b.speed) := by
  refine ⟨?_, ?_, ?_, ?_⟩
  · intro screenW headerHeight gameHeight side ry rv
    unfold getRandomSpawnPosition
    apply normSq_unit
    apply normSq_pm_one_ne_zero
    cases side <;> norm_num
  · intro dirRight angleDeg
    unfold initialBallVelocity
    apply normSq_unit
    have key : ∀ d : ℝ, d ^ 2 = 1 →
        Vec2.normSq ((Vec2.fromAngle angleDeg).scaleV ⟨d, 1⟩) = 1 := by
      intro d hd
      show (Real.cos (angleDeg * (Real.pi / 180)) * d) ^ 2 +
        (Real.sin (angleDeg * (Real.pi / 180)) * 1) ^ 2 = 1
      rw [mul_pow, mul_pow, hd, one_pow, mul_one, mul_one, Real.cos_sq_add_sin_sq]
    have hd : (if dirRight then (1 : ℝ) else -1) ^ 2 = 1 := by
      cases dirRight <;> norm_num
    rw [key _ hd]
    norm_num
  · intro centerX s b paddlePosY paddleHeight hs
    rw [handleBallPaddleCollision_playing centerX s b paddlePosY paddleHeight hs]
    apply normSq_unit
    apply normSq_pm_one_ne_zero
    by_cases hx : b.posX < centerX
    · exact Or.inl (if_pos hx)
    · exact Or.inr (if_neg hx)
  · intro b dt
    exact ⟨rfl, rfl, rfl⟩

/-- Witness for C1: a concrete ball-paddle collision in the playing state
produces a unit-length velocity. -/
theorem c1_witness :
    (handleBallPaddleCollision 600 ⟨.playing, .speed, 0, 0, 0, 0, [], []⟩
        ⟨100, 200, 1, 0, 600, true⟩ 300 160).2.velX ^ 2 +
      (handleBallPaddleCollision 600 ⟨.playing, .speed, 0, 0, 0, 0, [], []⟩
        ⟨100, 200, 1, 0, 600, true⟩ 300 160).2.velY ^ 2 = 1 :=
  c1_unit_velocity_after_spawn_and_collision.2.2.1 600
    ⟨.playing, .speed, 0, 0, 0, 0, [], []⟩ ⟨100, 200, 1, 0, 600, true⟩ 300 160 rfl

/-! ## Claim C9 -/

/-- C9: outside the `playing` state a ball-paddle collision event is a
complete no-op — the session (hence the score) and the ball (hence its
velocity and speed) are returned unchanged. -/
theorem c9_collision_noop_when_not_playing (centerX : ℝ) (s : Session) (b : Ball)
    (paddlePosY paddleHeight : ℝ) (hs : s.gameState ≠ .playing) :
    handleBallPaddleCollision centerX s b paddlePosY paddleHeight = (s, b) := by
  unfold handleBallPaddleCollision
  rw [if_neg hs]

/-- Witness for C9 at a concrete menu-state session. -/
theorem c9_witness :
    handleBallPaddleCollision 600 ⟨.menu, .speed, 0, 0, 7, 0, [], []⟩
        ⟨100, 200, 1, 0, 600, true⟩ 300 160 =
      (⟨.menu, .speed, 0, 0, 7, 0, [], []⟩, ⟨100, 200, 1, 0, 600, true⟩) :=
  c9_collision_noop_when_not_playing 600 ⟨.menu, .speed, 0, 0, 7, 0, [], []⟩
    ⟨100, 200, 1, 0, 600, true⟩ 300 160 (by simp)

/-! ## Claim C2 -/

/-- A wall bounce never changes the scalar speed. -/
lemma bounceBall_speed (headerHeight gameHeight : ℝ) (b : Ball) :
    (bounceBall headerHeight gameHeight b).speed = b.speed := by
  simp only [bounceBall]
  split_ifs <;> rfl

/-- A wall bounce never changes the x velocity. -/
lemma bounceBall_velX (headerHeight gameHeight : ℝ) (b : Ball) :
    (bounceBall headerHeight gameHeight b).velX = b.velX := by
  simp only [bounceBall]
  split_ifs <;> rfl

lemma countHits_cons (e : PlayEvent) (es : List PlayEvent) :
    countHits (e :: es) = countHits [e] + countHits es := by
  cases e <;> simp [countHits] <;> omega

/-- One play event in the `playing` state: the state stays `playing`, and
the score and speed advance by the number of hits in the event (1 for a
paddle hit, 0 for a move or wall bounce). -/
lemma applyEvent_playing (e : PlayEvent) (s : Session) (b : Ball)
    (hs : s.gameState = .playing) :
    (applyEvent e (s, b)).1.gameState = .playing ∧
    (applyEvent e (s, b)).1.score = s.score + countHits [e] ∧
    (applyEvent e (s, b)).2.speed = b.speed + (countHits [e] : ℝ) * 80 := by
  cases e with
  | hit p =>
    rw [show applyEvent (.hit p) (s, b) =
        handleBallPaddleCollision p.centerX s b p.paddlePosY p.paddleHeight from rfl,
      handleBallPaddleCollision_playing p.centerX s b p.paddlePosY p.paddleHeight hs]
    refine ⟨hs, rfl, ?_⟩
    show b.speed + 80 = b.speed + ((1 : ℕ) : ℝ) * 80
    norm_num
  | move dt =>
    refine ⟨hs, ?_, ?_⟩
    · show s.score = s.score + countHits []
      simp [countHits]
    · show (moveBall b dt).speed = b.speed + ((0 : ℕ) : ℝ) * 80
      simp [moveBall]
  | wall headerHeight gameHeight =>
    refine ⟨hs, ?_, ?_⟩
    · show s.score = s.score + countHits []
      simp [countHits]
    · show (bounceBall headerHeight gameHeight b).speed = b.speed + ((0 : ℕ) : ℝ) * 80
      simp [bounceBall_speed]

/-- Over any sequence of play events in the `playing` state, the state stays
`playing`, the score advances by the hit count, and the speed by 80 per
hit. -/
lemma applyEvents_score_speed (es : List PlayEvent) (s : Session) (b : Ball)
    (hs : s.gameState = .playing) :
    (applyEvents es (s, b)).1.gameState = .playing ∧
    (applyEvents es (s, b)).1.score = s.score + countHits es ∧
    (applyEvents es (s, b)).2.speed = b.speed + (countHits es : ℝ) * 80 := by
  induction es generalizing s b with
  | nil =>
    refine ⟨hs, ?_, ?_⟩
    · show s.score = s.score + countHits []
      simp [countHits]
    · show b.speed = b.speed + ((0 : ℕ) : ℝ) * 80
      norm_num
  | cons e es ih =>
    obtain ⟨h1, h2, h3⟩ := applyEvent_playing e s b hs
    obtain ⟨g1, g2, g3⟩ := ih (applyEvent e (s, b)).1 (applyEvent e (s, b)).2 h1
    have heq : applyEvents (e :: es) (s, b) =
        applyEvents es ((applyEvent e (s, b)).1, (applyEvent e (s, b)).2) := rfl
    refine ⟨?_, ?_, ?_⟩
    · rw [heq, g1]
    · rw [heq, g2, h2, countHits_cons e es]
      omega
    · rw [heq, g3, h3, countHits_cons e es]
      push_cast
      ring


/-- C2: starting from score 0 in the `playing` state, after any sequence of
play events containing N paddle hits (with moves and wall bounces allowed in
between, and no game reset), the score equals N and the ball's speed equals
its initial speed plus N * 80; and each single hit increments the score by
exactly 1 and the speed by exactly 80. The session's mode is arbitrary, so
this holds in both speed and agility modes. -/
theorem c2_score_speed_after_hits (es : List PlayEvent) (s : Session) (b : Ball)
    (hs : s.gameState = .playing) (h0 : s.score = 0) :
    (applyEvents es (s, b)).1.score = countHits es ∧
    (applyEvents es (s, b)).2.speed = b.speed + (countHits es : ℝ) * 80 ∧
    (∀ (centerX paddlePosY paddleHeight : ℝ),
      (handleBallPaddleCollision centerX s b paddlePosY paddleHeight).1.score =
        s.score + 1 ∧
      (handleBallPaddleCollision centerX s b paddlePosY paddleHeight).2.speed =
        b.speed + 80) := by
  obtain ⟨h1, h2, h3⟩ := applyEvents_score_speed es s b hs
  refine ⟨?_, h3, ?_⟩
  · rw [h2, h0, Nat.zero_add]
  · intro centerX paddlePosY paddleHeight
    rw [handleBallPaddleCollision_playing centerX s b paddlePosY paddleHeight hs]
    exact ⟨rfl, rfl⟩

/-- Witness for C2: two consecutive hits from score 0 at speed 600. -/
theorem c2_witness :
    (applyEvents [.hit ⟨600, 300, 160⟩, .hit ⟨600, 300, 160⟩]
        (⟨.playing, .agility, 0, 0, 0, 0, [], []⟩, ⟨100, 200, 1, 0, 600, true⟩)).1.score =
      countHits [.hit ⟨600, 300, 160⟩, .hit ⟨600, 300, 160⟩] ∧
    (applyEvents [.hit ⟨600, 300, 160⟩, .hit ⟨600, 300, 160⟩]
        (⟨.playing, .agility, 0, 0, 0, 0, [], []⟩, ⟨100, 200, 1, 0, 600, true⟩)).2.speed =
      600 + (countHits [.hit ⟨600, 300, 160⟩, .hit ⟨600, 300, 160⟩] : ℝ) * 80 :=
  ⟨(c2_score_speed_after_hits [.hit ⟨600, 300, 160⟩, .hit ⟨600, 300, 160⟩]
      ⟨.playing, .agility, 0, 0, 0, 0, [], []⟩ ⟨100, 200, 1, 0, 600, true⟩ rfl rfl).1,
   (c2_score_speed_after_hits [.hit ⟨600, 300, 160⟩, .hit ⟨600, 300, 160⟩]
      ⟨.playing, .agility, 0, 0, 0, 0, [], []⟩ ⟨100, 200, 1, 0, 600, true⟩ rfl rfl).2.1⟩

/-! ## Claim C3 -/

/-- The per-ball step does not fire game over when the post-movement x
position stays within `[0, screenW]`. -/
lemma frameStepBall_no_fire (headerHeight gameHeight screenW dt : ℝ) (b : Ball)
    (hx0 : 0 ≤ (moveBall b dt).posX) (hx1 : (moveBall b dt).posX ≤ screenW) :
    frameStepBall headerHeight gameHeight screenW dt b =
      (bounceBall headerHeight gameHeight (moveBall b dt), false) := by
  unfold frameStepBall
  rw [if_neg]
  push_neg
  exact ⟨hx0, hx1⟩

/-- C3 counterexample: a ball whose post-movement y position is at or beyond
the top wall but whose post-movement x position has also left the screen:
the update signals game over and skips the reflection, so the y velocity is
not negated and the y position is not clamped, refuting the claim as
universally stated. -/
theorem c3_counterexample :
    (moveBall ⟨5, 60, -1, -0.5, 600, true⟩ (1 / 100)).posY ≤ 60 ∧
    (frameStepBall 60 800 1200 (1 / 100) ⟨5, 60, -1, -0.5, 600, true⟩).1.velY ≠
      -(-0.5 : ℝ) ∧
    (frameStepBall 60 800 1200 (1 / 100) ⟨5, 60, -1, -0.5, 600, true⟩).1.posY ≠
      60 + 1 := by
  refine ⟨by norm_num [moveBall], ?_, ?_⟩ <;>
  · rw [show frameStepBall 60 800 1200 (1 / 100) ⟨5, 60, -1, -0.5, 600, true⟩ =
        (moveBall ⟨5, 60, -1, -0.5, 600, true⟩ (1 / 100), true) from by
      unfold frameStepBall
      rw [if_pos (Or.inl (by norm_num [moveBall]))]]
    norm_num [moveBall]

/-- C3 (amended): if after the movement step the ball's x position is still
within `[0, screenW]` and its y position is at or beyond the top wall
(`≤ headerHeight`) or the bottom wall (`≥ gameHeight`), the update negates
only the y velocity, clamps the y position to the violated wall plus a
one-unit inward epsilon, leaves the x velocity and the scalar speed
unchanged, and does not signal game over. -/
theorem c3_wall_reflection (headerHeight gameHeight screenW dt : ℝ) (b : Ball)
    (hx0 : 0 ≤ (moveBall b dt).posX) (hx1 : (moveBall b dt).posX ≤ screenW)
    (hy : (moveBall b dt).posY ≤ headerHeight ∨ (moveBall b dt).posY ≥ gameHeight) :
    (frameStepBall headerHeight gameHeight screenW dt b).1.velY = -b.velY ∧
    (frameStepBall headerHeight gameHeight screenW dt b).1.velX = b.velX ∧
    (frameStepBall headerHeight gameHeight screenW dt b).1.speed = b.speed ∧
    (frameStepBall headerHeight gameHeight screenW dt b).1.posY =
      (if (moveBall b dt).posY ≤ headerHeight then headerHeight + 1
       else gameHeight - 1) ∧
    (frameStepBall headerHeight gameHeight screenW dt b).2 = false := by
  rw [frameStepBall_no_fire headerHeight gameHeight screenW dt b hx0 hx1]
  simp only [bounceBall]
  rw [if_pos hy]
  by_cases htop : (moveBall b dt).posY ≤ headerHeight
  · rw [if_pos htop, if_pos htop]
    exact ⟨rfl, rfl, rfl, rfl, trivial⟩
  · have hbot : (moveBall b dt).posY ≥ gameHeight := hy.resolve_left htop
    rw [if_neg htop, if_neg htop, if_pos hbot]
    exact ⟨rfl, rfl, rfl, rfl, trivial⟩

/-- Witness for C3: the spec scenario, a ball at `y = headerHeight - 5` with
velocity `(0.7, -0.7)` (header at 60, in-bounds x), ends one update with
velocity `(0.7, 0.7)` and `y = headerHeight + 1 = 61`. -/
theorem c3_witness :
    (frameStepBall 60 800 1200 (1 / 100) ⟨600, 55, 0.7, -0.7, 600, true⟩).1.velY =
      (0.7 : ℝ) ∧
    (frameStepBall 60 800 1200 (1 / 100) ⟨600, 55, 0.7, -0.7, 600, true⟩).1.velX =
      (0.7 : ℝ) ∧
    (frameStepBall 60 800 1200 (1 / 100) ⟨600, 55, 0.7, -0.7, 600, true⟩).1.posY =
      61 := by
  obtain ⟨h1, h2, h3, h4, h5⟩ := c3_wall_reflection 60 800 1200 (1 / 100)
    ⟨600, 55, 0.7, -0.7, 600, true⟩ (by norm_num [moveBall]) (by norm_num [moveBall])
    (Or.inl (by norm_num [moveBall]))
  refine ⟨?_, ?_, ?_⟩
  · rw [h1]
    norm_num
  · rw [h2]
  · rw [h4, if_pos (show (moveBall ⟨600, 55, 0.7, -0.7, 600, true⟩ (1 / 100)).posY ≤ 60
      from by norm_num [moveBall])]
    norm_num

/-! ## Claim C4 -/

/-- The per-ball step fires game over exactly when the post-movement x
position has left `[0, screenW]`. -/
lemma frameStepBall_fires_iff (headerHeight gameHeight screenW dt : ℝ) (b : Ball) :
    (frameStepBall headerHeight gameHeight screenW dt b).2 = true ↔
      ((moveBall b dt).posX < 0 ∨ (moveBall b dt).posX > screenW) := by
  simp only [frameStepBall]
  split_ifs with h <;> simp [h]

/-- Once `destroyAll` has run, the remainder of the loop skips every ball:
nothing further moves, fires, or touches the session. -/
lemma updateBallsAux_skip_all (headerHeight gameHeight screenW dt : ℝ)
    (l : List Ball) (s : Session) (f : ℕ) :
    updateBallsAux headerHeight gameHeight screenW dt l s true f = ⟨l, s, f, true⟩ := by
  induction l with
  | nil => rfl
  | cons b rest ih => simp [updateBallsAux, ih]

/-- If some existing ball in the pending list fires game over, the loop
calls `onGameOver` exactly once and the session ends as `showGameOver` of
the session at the moment of exit. -/
lemma updateBallsAux_fires (headerHeight gameHeight screenW dt : ℝ)
    (l : List Ball) (s : Session) (f : ℕ)
    (hex : ∃ b ∈ l, b.alive = true ∧
      (frameStepBall headerHeight gameHeight screenW dt b).2 = true) :
    (updateBallsAux headerHeight gameHeight screenW dt l s false f).fires = f + 1 ∧
    (updateBallsAux headerHeight gameHeight screenW dt l s false f).scal =
      showGameOver s ∧
    (updateBallsAux headerHeight gameHeight screenW dt l s false f).destroyed = true := by
  revert hex
  induction l generalizing s f with
  | nil =>
    intro hex
    simp at hex
  | cons b rest ih =>
    intro hex
    by_cases hb : b.alive = true
    · by_cases hf : (frameStepBall headerHeight gameHeight screenW dt b).2 = true
      · show ((updateBallsAux headerHeight gameHeight screenW dt (b :: rest) s false f)).fires = f + 1 ∧ _
        unfold updateBallsAux
        rw [if_pos ⟨hb, rfl⟩, if_pos hf, updateBallsAux_skip_all]
        exact ⟨rfl, rfl, rfl⟩
      · have hex' : ∃ b' ∈ rest, b'.alive = true ∧
            (frameStepBall headerHeight gameHeight screenW dt b').2 = true := by
          rcases hex with ⟨b', hmem, hal, hfi⟩
          rcases List.mem_cons.mp hmem with heq | hmem'
          · subst heq
            exact absurd hfi hf
          · exact ⟨b', hmem', hal, hfi⟩
        obtain ⟨g1, g2, g3⟩ := ih s f hex'
        unfold updateBallsAux
        rw [if_pos ⟨hb, rfl⟩, if_neg hf]
        exact ⟨g1, g2, g3⟩
    · have hex' : ∃ b' ∈ rest, b'.alive = true ∧
          (frameStepBall headerHeight gameHeight screenW dt b').2 = true := by
        rcases hex with ⟨b', hmem, hal, hfi⟩
        rcases List.mem_cons.mp hmem with heq | hmem'
        · subst heq
          exact absurd hal hb
        · exact ⟨b', hmem', hal, hfi⟩
      obtain ⟨g1, g2, g3⟩ := ih s f hex'
      unfold updateBallsAux
      rw [if_neg]
      · exact ⟨g1, g2, g3⟩
      · rintro ⟨h1, _⟩
        exact hb h1

/-- C4: whenever some existing ball's post-movement x position leaves
`[0, screenW]` during a per-frame ball update in the `playing` state, the
`onGameOver` callback fires exactly once that frame, the state transitions
to `gameOver`, and `finalTime` is set to the `gameTime` at the moment of
exit (the update loop never advances `gameTime`). -/
theorem c4_game_over_once (headerHeight gameHeight screenW dt : ℝ) (s : Session)
    (hplay : s.gameState = .playing)
    (hex : ∃ b ∈ s.balls, b.alive = true ∧
      ((moveBall b dt).posX < 0 ∨ (moveBall b dt).posX > screenW)) :
    (updateBalls headerHeight gameHeight screenW dt s).2 = 1 ∧
    (updateBalls headerHeight gameHeight screenW dt s).1.gameState = .gameOver ∧
    (updateBalls headerHeight gameHeight screenW dt s).1.finalTime = s.gameTime := by
  have hex' : ∃ b ∈ s.balls, b.alive = true ∧
      (frameStepBall headerHeight gameHeight screenW dt b).2 = true := by
    rcases hex with ⟨b, hm, ha, hx⟩
    exact ⟨b, hm, ha, (frameStepBall_fires_iff headerHeight gameHeight screenW dt b).mpr hx⟩
  obtain ⟨h1, h2, h3⟩ :=
    updateBallsAux_fires headerHeight gameHeight screenW dt s.balls s 0 hex'
  refine ⟨h1, ?_, ?_⟩
  · show (updateBallsAux headerHeight gameHeight screenW dt s.balls s false 0).scal.gameState =
      GameState.gameOver
    rw [h2]
    rfl
  · show (updateBallsAux headerHeight gameHeight screenW dt s.balls s false 0).scal.finalTime =
      s.gameTime
    rw [h2]
    rfl

/-- Witness for C4: a single ball exiting on the left edge ends a concrete
playing session with one game-over signal and `finalTime = 5`. -/
theorem c4_witness :
    (updateBalls 60 800 1200 (1 / 100)
        ⟨.playing, .speed, 5, 0, 3, 0, [⟨-50, 100, -1, 0, 600, true⟩], []⟩).2 = 1 ∧
    (updateBalls 60 800 1200 (1 / 100)
        ⟨.playing, .speed, 5, 0, 3, 0, [⟨-50, 100, -1, 0, 600, true⟩], []⟩).1.gameState =
      .gameOver ∧
    (updateBalls 60 800 1200 (1 / 100)
        ⟨.playing, .speed, 5, 0, 3, 0, [⟨-50, 100, -1, 0, 600, true⟩], []⟩).1.finalTime =
      5 :=
  c4_game_over_once 60 800 1200 (1 / 100)
    ⟨.playing, .speed, 5, 0, 3, 0, [⟨-50, 100, -1, 0, 600, true⟩], []⟩ rfl
    ⟨⟨-50, 100, -1, 0, 600, true⟩, by simp, rfl, Or.inl (by norm_num [moveBall])⟩

/-! ## Claim C5 -/

/-- The loop returns one processed ball per pending ball. -/
lemma updateBallsAux_length (headerHeight gameHeight screenW dt : ℝ)
    (l : List Ball) (s : Session) (d : Bool) (f : ℕ) :
    (updateBallsAux headerHeight gameHeight screenW dt l s d f).balls.length =
      l.length := by
  induction l generalizing s d f with
  | nil => rfl
  | cons b rest ih =>
    unfold updateBallsAux
    split_ifs with h1
    · dsimp only
      split_ifs with h2 <;> simp [ih]
    · simp [ih]

/-- The session returned by the loop is the input session or its
`showGameOver`. -/
lemma updateBallsAux_scal_cases (headerHeight gameHeight screenW dt : ℝ)
    (l : List Ball) (s : Session) (d : Bool) (f : ℕ) :
    (updateBallsAux headerHeight gameHeight screenW dt l s d f).scal = s ∨
    (updateBallsAux headerHeight gameHeight screenW dt l s d f).scal =
      showGameOver s := by
  induction l generalizing s d f with
  | nil => exact Or.inl rfl
  | cons b rest ih =>
    unfold updateBallsAux
    split_ifs with h1
    · dsimp only
      split_ifs with h2
      · rw [updateBallsAux_skip_all]
        exact Or.inr rfl
      · exact ih s d f
    · exact ih s d f

/-- The function `updateBalls` preserves the ball count and the timing/mode scalars of
the session (only `gameState`, `finalTime` and the `alive` flags can
change). -/
lemma updateBalls_preserves (headerHeight gameHeight screenW dt : ℝ) (s : Session) :
    (updateBalls headerHeight gameHeight screenW dt s).1.balls.length =
      s.balls.length ∧
    (updateBalls headerHeight gameHeight screenW dt s).1.gameTime = s.gameTime ∧
    (updateBalls headerHeight gameHeight screenW dt s).1.lastBallSpawnTime =
      s.lastBallSpawnTime ∧
    (updateBalls headerHeight gameHeight screenW dt s).1.gameMode = s.gameMode := by
  refine ⟨?_, ?_, ?_, ?_⟩
  · show (if (updateBallsAux headerHeight gameHeight screenW dt s.balls s false 0).destroyed
        then killBalls (updateBallsAux headerHeight gameHeight screenW dt s.balls s false 0).balls
        else (updateBallsAux headerHeight gameHeight screenW dt s.balls s false 0).balls).length =
      s.balls.length
    split_ifs <;> simp [killBalls, updateBallsAux_length]
  all_goals
    rcases updateBallsAux_scal_cases headerHeight gameHeight screenW dt s.balls s false 0
      with h | h
  · show (updateBallsAux headerHeight gameHeight screenW dt s.balls s false 0).scal.gameTime =
      s.gameTime
    rw [h]
  · show (updateBallsAux headerHeight gameHeight screenW dt s.balls s false 0).scal.gameTime =
      s.gameTime
    rw [h]
    rfl
  · show (updateBallsAux headerHeight gameHeight screenW dt s.balls s false 0).scal.lastBallSpawnTime =
      s.lastBallSpawnTime
    rw [h]
  · show (updateBallsAux headerHeight gameHeight screenW dt s.balls s false 0).scal.lastBallSpawnTime =
      s.lastBallSpawnTime
    rw [h]
    rfl
  · show (updateBallsAux headerHeight gameHeight screenW dt s.balls s false 0).scal.gameMode =
      s.gameMode
    rw [h]
  · show (updateBallsAux headerHeight gameHeight screenW dt s.balls s false 0).scal.gameMode =
      s.gameMode
    rw [h]
    rfl

/-- Evaluation of the tick when the spawn condition holds. -/
lemma updateGame_spawn_case (headerHeight screenW screenH dt : ℝ)
    (side : Bool) (ry rv : ℝ) (s : Session)
    (hplay : s.gameState = .playing) (hballs : 0 < s.balls.length)
    (hc : s.gameMode = .agility ∧ s.gameTime + dt - s.lastBallSpawnTime ≥ 10 ∧
      s.balls.length < 10) :
    updateGame headerHeight screenW screenH dt side ry rv s =
      (updateBalls headerHeight screenH screenW dt
        { s with
          gameTime := s.gameTime + dt
          balls := s.balls ++ [spawnNewBall screenW headerHeight screenH side ry rv]
          lastBallSpawnTime := s.gameTime + dt }).1 := by
  unfold updateGame
  rw [if_pos ⟨hplay, hballs⟩]
  dsimp only
  rw [if_pos hc]

/-- Evaluation of the tick when the spawn condition fails. -/
lemma updateGame_nospawn_case (headerHeight screenW screenH dt : ℝ)
    (side : Bool) (ry rv : ℝ) (s : Session)
    (hplay : s.gameState = .playing) (hballs : 0 < s.balls.length)
    (hc : ¬(s.gameMode = .agility ∧ s.gameTime + dt - s.lastBallSpawnTime ≥ 10 ∧
      s.balls.length < 10)) :
    updateGame headerHeight screenW screenH dt side ry rv s =
      (updateBalls headerHeight screenH screenW dt
        { s with gameTime := s.gameTime + dt }).1 := by
  unfold updateGame
  rw [if_pos ⟨hplay, hballs⟩]
  dsimp only
  rw [if_neg hc]

/-- C5: during a per-frame tick in the `playing` state with at least one
ball, exactly one new ball is appended exactly when the mode is agility, at
least 10 elapsed-seconds have passed since the last spawn (measured on the
just-advanced `gameTime`), and fewer than 10 balls are active; the spawn
timer is reset to the current `gameTime` on a spawn (so the spawn cannot
repeat until another 10 seconds have elapsed); `gameTime` always advances by
`dt`; and in speed mode the ball count never grows. -/
theorem c5_agility_spawn_policy (headerHeight screenW screenH dt : ℝ)
    (side : Bool) (ry rv : ℝ) (s : Session)
    (hplay : s.gameState = .playing) (hballs : 0 < s.balls.length) :
    ((updateGame headerHeight screenW screenH dt side ry rv s).balls.length =
      s.balls.length +
        if s.gameMode = .agility ∧ s.gameTime + dt - s.lastBallSpawnTime ≥ 10 ∧
            s.balls.length < 10 then 1 else 0) ∧
    ((updateGame headerHeight screenW screenH dt side ry rv s).lastBallSpawnTime =
      if s.gameMode = .agility ∧ s.gameTime + dt - s.lastBallSpawnTime ≥ 10 ∧
          s.balls.length < 10 then s.gameTime + dt else s.lastBallSpawnTime) ∧
    ((updateGame headerHeight screenW screenH dt side ry rv s).gameTime =
      s.gameTime + dt) ∧
    (s.gameMode = .speed →
      (updateGame headerHeight screenW screenH dt side ry rv s).balls.length =
        s.balls.length) := by
  by_cases hc : s.gameMode = .agility ∧ s.gameTime + dt - s.lastBallSpawnTime ≥ 10 ∧
      s.balls.length < 10
  · rw [updateGame_spawn_case headerHeight screenW screenH dt side ry rv s hplay hballs hc]
    obtain ⟨p1, p2, p3, p4⟩ := updateBalls_preserves headerHeight screenH screenW dt
      { s with
        gameTime := s.gameTime + dt
        balls := s.balls ++ [spawnNewBall screenW headerHeight screenH side ry rv]
        lastBallSpawnTime := s.gameTime + dt }
    refine ⟨?_, ?_, ?_, ?_⟩
    · rw [p1, if_pos hc]
      simp
    · rw [p3, if_pos hc]
    · rw [p2]
    · intro hmode
      rcases hc with ⟨hag, _⟩
      rw [hmode] at hag
      exact absurd hag (by simp)
  · rw [updateGame_nospawn_case headerHeight screenW screenH dt side ry rv s hplay hballs hc]
    obtain ⟨p1, p2, p3, p4⟩ := updateBalls_preserves headerHeight screenH screenW dt
      { s with gameTime := s.gameTime + dt }
    refine ⟨?_, ?_, ?_, ?_⟩
    · rw [p1, if_neg hc]
      simp
    · rw [p3, if_neg hc]
    · rw [p2]
    · intro hmode
      rw [p1]

/-- Witness for C5: an agility session crossing the 10-second boundary with
one active ball gains exactly one ball and resets the spawn timer. -/
theorem c5_witness :
    ((updateGame 60 1200 800 (3 / 5) false 0 0
        ⟨.playing, .agility, 19 / 2, 0, 0, 0, [⟨600, 400, 1, 0, 600, true⟩], []⟩).balls.length =
      1 + if GameMode.agility = GameMode.agility ∧
          (19 / 2 : ℝ) + 3 / 5 - 0 ≥ 10 ∧ (1 : ℕ) < 10 then 1 else 0) ∧
    ((updateGame 60 1200 800 (3 / 5) false 0 0
        ⟨.playing, .agility, 19 / 2, 0, 0, 0, [⟨600, 400, 1, 0, 600, true⟩], []⟩).gameTime =
      19 / 2 + 3 / 5) := by
  obtain ⟨h1, h2, h3, h4⟩ := c5_agility_spawn_policy 60 1200 800 (3 / 5) false 0 0
    ⟨.playing, .agility, 19 / 2, 0, 0, 0, [⟨600, 400, 1, 0, 600, true⟩], []⟩
    rfl (by simp)
  exact ⟨h1, h3⟩

/-! ## Claim C6 -/

/-- C6: from any state, `startGame` (also the playAgain trigger) yields
`gameState = playing`, score 0, elapsed time 0, spawn timer 0, exactly two
paddles, and exactly one ball — the fresh initial ball, so all prior balls
are cleared. -/
theorem c6_start_game (screenW screenH headerHeight offset pHeight : ℝ)
    (dirRight : Bool) (angleDeg : ℝ) (s : Session) :
    (startGame screenW screenH headerHeight offset pHeight dirRight angleDeg s).gameState =
      .playing ∧
    (startGame screenW screenH headerHeight offset pHeight dirRight angleDeg s).score = 0 ∧
    (startGame screenW screenH headerHeight offset pHeight dirRight angleDeg s).gameTime =
      0 ∧
    (startGame screenW screenH headerHeight offset pHeight dirRight angleDeg s).lastBallSpawnTime =
      0 ∧
    (startGame screenW screenH headerHeight offset pHeight dirRight angleDeg s).balls =
      [createInitialBall screenW screenH headerHeight dirRight angleDeg] ∧
    (startGame screenW screenH headerHeight offset pHeight dirRight angleDeg s).balls.length =
      1 ∧
    (startGame screenW screenH headerHeight offset pHeight dirRight angleDeg s).paddles.length =
      2 :=
  ⟨rfl, rfl, rfl, rfl, rfl, rfl, rfl⟩

end Pong
